import Mathlib

/-!
Shallow embedding of `darca_vector_db/db_client.py`: the error taxonomy
(`DBClientException` and its four specializations), the abstract base client
(`BaseDBClient`), the Qdrant adapter (`QdrantDBClient`) and the dispatch
facade (`DBClient`).

Modelling conventions:
* Python exceptions are a small inductive `PyExc`; an operation returns
  `Except PyExc α` (`.error` models a raised exception escaping the call).
* The external Qdrant client library is opaque: a `Backend ρ` record gives,
  for each backend method, the outcome of calling it (`CallResult`), with `ρ`
  the backend-defined type of search results.  The trace of backend calls an
  operation issues is returned explicitly as a `List BackendCall`.
* Log events (`logger.info` / `logger.error`) are collected in a
  `List LogEvent`, in execution order; since a raised exception aborts the
  Python function body, every event in the returned list was emitted before
  the operation returned or raised.
* A `None` connection handle is `Option.none`; a Python attribute access on
  `None` raises `AttributeError`, which the adapter code may catch.
-/

namespace DarcaVectorDB

/-- Vectors as handled by this layer: an ordered sequence of scalar
components.  The adapter never inspects the components, so they are modelled
as rationals. -/
abbrev Vec := List Rat

/-- Free-form key-value metadata attached to a vector or to an error. -/
abbrev Metadata := List (String × String)

/-- The kind (Python class) of an error of the taxonomy: the base class
`DBClientException` and its four specializations. -/
inductive ErrorKind where
  | dbClientException
  | dbConnectionError
  | collectionCreationError
  | vectorInsertionError
  | vectorSearchError
deriving DecidableEq, Repr

/-- An error of the taxonomy, as constructed by `DBClientException.__init__`:
message, error code and metadata. -/
structure DBError where
  kind : ErrorKind
  message : String
  errorCode : String
  metadata : Metadata
deriving DecidableEq, Repr

/-- `DBClientException.__init__(message, error_code, metadata=None)`:
stores the message and error code and replaces an absent metadata mapping by
the empty mapping (`metadata or {}`). -/
def DBClientException.init (kind : ErrorKind) (message : String)
    (errorCode : String) (metadata : Option Metadata) : DBError :=
  ⟨kind, message, errorCode, metadata.getD []⟩

/-- Python exceptions observable at this layer's boundary:
`UnexpectedResponse` from the qdrant client, `AttributeError`,
`NotImplementedError`, `ValueError`, a raised taxonomy error, and any other
exception a backend call may raise. -/
inductive PyExc where
  | unexpectedResponse
  | attributeError (msg : String)
  | notImplementedError (msg : String)
  | valueError (msg : String)
  | dbError (e : DBError)
  | other (msg : String)
deriving DecidableEq, Repr

/-- Whether an escaping exception is an error of this layer's taxonomy. -/
def isTaxonomyError {α : Type} : Except PyExc α → Bool
  | .error (.dbError _) => true
  | _ => false

/-- Outcome of one call into the external backend client library: a normal
return or a raised exception. -/
inductive CallResult (α : Type) where
  | ok (a : α)
  | exc (e : PyExc)

/-- The `{size, distance}` parameter object passed to the backend's
create-collection call (`VectorParams`). -/
structure VectorParams where
  size : Nat
  distance : String
deriving DecidableEq, Repr

/-- A point record `{id, vector, payload}` as passed to the backend upsert
(`PointStruct(id=vector_id, vector=vector, payload=metadata)`). -/
structure PointStruct where
  id : String
  vector : Vec
  payload : Option Metadata
deriving DecidableEq, Repr

/-- One call issued to the external backend client, with its arguments. -/
inductive BackendCall where
  | createCollection (name : String) (params : VectorParams)
  | upsert (collection : String) (points : List PointStruct)
  | search (collection : String) (query : Vec) (limit : Nat)
deriving DecidableEq, Repr

/-- Behaviour of a connected backend client object (`qdrant_client`
instance): for each method, the outcome of calling it with the given
arguments.  `ρ` is the backend-defined type of search results. -/
structure Backend (ρ : Type) where
  createCollection : String → VectorParams → CallResult Unit
  upsert : String → List PointStruct → CallResult Unit
  search : String → Vec → Nat → CallResult ρ

/-- A structured log event emitted by an operation, at info or error
severity. -/
inductive LogEvent where
  | info (msg : String)
  | error (msg : String)
deriving DecidableEq, Repr

/-- Python's `str.upper()` as applied by `create_collection` to the
distance-metric string: upper-cases each character. -/
def pyUpper (s : String) : String := ⟨s.data.map Char.toUpper⟩

/-- Modelled from the spec: the member names of the external qdrant client
library's `Distance` enum, the "fixed closed set, e.g. {cosine, euclidean,
dot}" against which `create_collection` resolves its distance-metric string
case-insensitively.  The enum itself lives in the external dependency, not in
this repository's sources. -/
def Distance.members : List String := ["COSINE", "EUCLIDEAN", "DOT"]

/-- State of a `QdrantDBClient` after `__init__`: resolved host and port and
the connection handle, `none` until `connect` succeeds. -/
structure QdrantState (ρ : Type) where
  host : String
  port : Nat
  client : Option (Backend ρ)

/-- `BaseDBClient.connect`: the unimplemented base form, raising
`NotImplementedError`. -/
def BaseDBClient.connect : Except PyExc Unit :=
  .error (.notImplementedError "Subclasses must implement this method.")

/-- `BaseDBClient.create_collection`: the unimplemented base form. -/
def BaseDBClient.create_collection (_name : String) (_vector_size : Nat)
    (_distance_metric : String) : Except PyExc Unit :=
  .error (.notImplementedError "Subclasses must implement this method.")

/-- `BaseDBClient.insert_vector`: the unimplemented base form. -/
def BaseDBClient.insert_vector (_collection_name _vector_id : String)
    (_vector : Vec) (_metadata : Option Metadata) : Except PyExc Unit :=
  .error (.notImplementedError "Subclasses must implement this method.")

/-- `BaseDBClient.search_vectors`: the unimplemented base form. -/
def BaseDBClient.search_vectors {ρ : Type} (_collection_name : String)
    (_query_vector : Vec) (_top_k : Nat) : Except PyExc ρ :=
  .error (.notImplementedError "Subclasses must implement this method.")

/-- `QdrantDBClient.connect`: attempts to construct a `QdrantClient` with the
configured host/port (the constructor's outcome is the `ctor` argument); on
success stores the handle and logs an info event naming host:port, on any
failure logs an error event and raises `DBConnectionError` with code
`DB_CONN_ERROR`, leaving the handle unchanged.  Returns (new state, log
events in emission order, outcome). -/
def QdrantDBClient.connect {ρ : Type} (st : QdrantState ρ)
    (ctor : CallResult (Backend ρ)) :
    QdrantState ρ × List LogEvent × Except PyExc Unit :=
  match ctor with
  | .ok c =>
      (⟨st.host, st.port, some c⟩,
       [.info ("Successfully connected to Qdrant at " ++ st.host ++ ":"
          ++ toString st.port)],
       .ok ())
  | .exc _ =>
      (st,
       [.error "Connection to Qdrant failed"],
       .error (.dbError (DBClientException.init .dbConnectionError
          "Failed to connect to Qdrant server" "DB_CONN_ERROR" none)))

/-- `QdrantDBClient.create_collection`: resolves the distance-metric string
against `Distance.members` via `getattr(Distance, distance_metric.upper())`
(an unresolvable name raises `AttributeError`), then issues the backend
create-collection call on the stored handle (`None` handle: the attribute
access raises `AttributeError`).  The `except AttributeError` handler turns
any `AttributeError` raised in the try body into
`ValueError("Unsupported distance metric: ...")`; the
`except UnexpectedResponse` handler logs an error event and raises
`CollectionCreationError` with code `COLLECTION_CREATION_ERROR`; every other
exception escapes uncaught.  Returns (backend calls issued, log events in
emission order, outcome). -/
def QdrantDBClient.create_collection {ρ : Type} (st : QdrantState ρ)
    (name : String) (vector_size : Nat) (distance_metric : String) :
    List BackendCall × List LogEvent × Except PyExc Unit :=
  if pyUpper distance_metric ∈ Distance.members then
    match st.client with
    | none =>
        ([], [],
         .error (.valueError
            ("Unsupported distance metric: " ++ distance_metric)))
    | some c =>
        match c.createCollection name ⟨vector_size, pyUpper distance_metric⟩
        with
        | .ok _ =>
            ([.createCollection name ⟨vector_size, pyUpper distance_metric⟩],
             [.info ("Collection \x27" ++ name
                ++ "\x27 created successfully.")],
             .ok ())
        | .exc (.attributeError _) =>
            ([.createCollection name ⟨vector_size, pyUpper distance_metric⟩],
             [],
             .error (.valueError
                ("Unsupported distance metric: " ++ distance_metric)))
        | .exc .unexpectedResponse =>
            ([.createCollection name ⟨vector_size, pyUpper distance_metric⟩],
             [.error "Failed to create collection"],
             .error (.dbError (DBClientException.init .collectionCreationError
                "Failed to create collection" "COLLECTION_CREATION_ERROR"
                none)))
        | .exc e =>
            ([.createCollection name ⟨vector_size, pyUpper distance_metric⟩],
             [], .error e)
  else
    ([], [],
     .error (.valueError ("Unsupported distance metric: " ++ distance_metric)))

/-- `QdrantDBClient.insert_vector`: builds the single point record
`PointStruct(id, vector, payload=metadata)` and issues one backend upsert
with the one-element point list on the stored handle (`None` handle: the
attribute access raises `AttributeError`).  The broad `except Exception`
handler logs an error event and raises `VectorInsertionError` with code
`VECTOR_INSERTION_ERROR` on any exception; success logs an info event naming
the vector ID and the collection. -/
def QdrantDBClient.insert_vector {ρ : Type} (st : QdrantState ρ)
    (collection_name : String) (vector_id : String) (vector : Vec)
    (metadata : Option Metadata) :
    List BackendCall × List LogEvent × Except PyExc Unit :=
  match st.client with
  | none =>
      ([],
       [.error "Failed to insert vector"],
       .error (.dbError (DBClientException.init .vectorInsertionError
          "Failed to insert vector" "VECTOR_INSERTION_ERROR" none)))
  | some c =>
      match c.upsert collection_name [⟨vector_id, vector, metadata⟩] with
      | .ok _ =>
          ([.upsert collection_name [⟨vector_id, vector, metadata⟩]],
           [.info ("Vector with ID \x27" ++ vector_id
              ++ "\x27 inserted successfully into \x27" ++ collection_name
              ++ "\x27.")],
           .ok ())
      | .exc _ =>
          ([.upsert collection_name [⟨vector_id, vector, metadata⟩]],
           [.error "Failed to insert vector"],
           .error (.dbError (DBClientException.init .vectorInsertionError
              "Failed to insert vector" "VECTOR_INSERTION_ERROR" none)))

/-- `QdrantDBClient.search_vectors`: issues one backend search bounded by
`top_k` on the stored handle (`None` handle: the attribute access raises
`AttributeError`).  The broad `except Exception` handler logs an error event
and raises `VectorSearchError` with code `VECTOR_SEARCH_ERROR` on any
exception; success logs an info event naming the collection and returns the
backend result unmodified. -/
def QdrantDBClient.search_vectors {ρ : Type} (st : QdrantState ρ)
    (collection_name : String) (query_vector : Vec) (top_k : Nat) :
    List BackendCall × List LogEvent × Except PyExc ρ :=
  match st.client with
  | none =>
      ([],
       [.error "Failed to search vectors"],
       .error (.dbError (DBClientException.init .vectorSearchError
          "Failed to search vectors" "VECTOR_SEARCH_ERROR" none)))
  | some c =>
      match c.search collection_name query_vector top_k with
      | .ok r =>
          ([.search collection_name query_vector top_k],
           [.info ("Search completed successfully in collection \x27"
              ++ collection_name ++ "\x27.")],
           .ok r)
      | .exc _ =>
          ([.search collection_name query_vector top_k],
           [.error "Failed to search vectors"],
           .error (.dbError (DBClientException.init .vectorSearchError
              "Failed to search vectors" "VECTOR_SEARCH_ERROR" none)))

/-- `QdrantDBClient.search_vectors` with `top_k` omitted: the signature's
default `top_k: int = 10` applies. -/
def QdrantDBClient.search_vectors_default {ρ : Type} (st : QdrantState ρ)
    (collection_name : String) (query_vector : Vec) :
    List BackendCall × List LogEvent × Except PyExc ρ :=
  QdrantDBClient.search_vectors st collection_name query_vector 10

/-- `DBClient.__init__(backend, **kwargs)`: the backend identifier "qdrant"
constructs a `QdrantDBClient` (its `__init__` stores the resolved host/port
and a `None` handle, attempting no connection); any other identifier raises
the base taxonomy error `DBClientException` with code
`DB_UNSUPPORTED_BACKEND` and constructs no adapter. -/
def DBClient.init (ρ : Type) (backend : String) (host : String) (port : Nat) :
    Except PyExc (QdrantState ρ) :=
  if backend = "qdrant" then
    .ok ⟨host, port, none⟩
  else
    .error (.dbError (DBClientException.init .dbClientException
       ("Backend \x27" ++ backend ++ "\x27 is not supported")
       "DB_UNSUPPORTED_BACKEND" none))

/-- `DBClient.connect`: forwards to the adapter's `connect`; on success the
facade emits one additional info event after the adapter's own, on failure
the adapter's exception propagates unchanged with no facade event. -/
def DBClient.connect {ρ : Type} (st : QdrantState ρ)
    (ctor : CallResult (Backend ρ)) :
    QdrantState ρ × List LogEvent × Except PyExc Unit :=
  match QdrantDBClient.connect st ctor with
  | (st2, logs, .ok u) =>
      (st2, logs ++ [.info "Connected to the vector database."], .ok u)
  | (st2, logs, .error e) => (st2, logs, .error e)

/-- The error code the spec's taxonomy assigns to each error kind raised by
this layer (the base kind is raised only for an unsupported backend). -/
def ErrorKind.expectedCode : ErrorKind → String
  | .dbClientException => "DB_UNSUPPORTED_BACKEND"
  | .dbConnectionError => "DB_CONN_ERROR"
  | .collectionCreationError => "COLLECTION_CREATION_ERROR"
  | .vectorInsertionError => "VECTOR_INSERTION_ERROR"
  | .vectorSearchError => "VECTOR_SEARCH_ERROR"

/-- The taxonomy contract on a raised error: non-empty message, exactly the
code assigned to its kind, and empty metadata when none was supplied. -/
def DBError.meetsContract (e : DBError) : Prop :=
  e.message ≠ "" ∧ e.errorCode = e.kind.expectedCode ∧ e.metadata = []

/-- One log event at info or error severity on each completed path: an
outcome that returns normally comes with exactly one info event, an outcome
that raises a taxonomy error comes with exactly one error event (emitted, by
trace order, before the raise). -/
def emitsOneLog {α : Type} (logs : List LogEvent) (out : Except PyExc α) :
    Prop :=
  (∀ a, out = .ok a → ∃ m, logs = [.info m]) ∧
  (∀ e, out = .error (.dbError e) → ∃ m, logs = [.error m])

/-- The external client library raises its own exception types, never an
error of this layer's taxonomy: no backend method call raises a `dbError`.
Holds of every real backend; rules out the model-only artefact of a backend
throwing this layer's own typed errors. -/
def Backend.noTaxonomyRaises {ρ : Type} (c : Backend ρ) : Prop :=
  (∀ n p d, c.createCollection n p ≠ .exc (.dbError d)) ∧
  (∀ n pts d, c.upsert n pts ≠ .exc (.dbError d)) ∧
  (∀ n q k d, c.search n q k ≠ .exc (.dbError d))

/-- A fully successful backend: create-collection and upsert return normally,
search returns the two-element result sequence used by the repository's
tests. -/
def backendHappy : Backend (List String) :=
  ⟨fun _ _ => .ok (), fun _ _ => .ok (), fun _ _ _ => .ok ["result1", "result2"]⟩

/-- A connected adapter state holding `backendHappy`. -/
def stHappy : QdrantState (List String) := ⟨"localhost", 6333, some backendHappy⟩

/-- A backend whose create-collection call raises `UnexpectedResponse` and
whose upsert and search calls raise a generic exception. -/
def backendRejecting : Backend Unit :=
  ⟨fun _ _ => .exc .unexpectedResponse,
   fun _ _ => .exc (.other "Insertion Failed"),
   fun _ _ _ => .exc (.other "Search Failed")⟩

/-- A connected adapter state holding `backendRejecting`. -/
def stRejecting : QdrantState Unit := ⟨"localhost", 6333, some backendRejecting⟩

/-- A backend whose create-collection call raises a generic exception that is
neither `AttributeError` nor `UnexpectedResponse`. -/
def backendServiceDown : Backend Unit :=
  ⟨fun _ _ => .exc (.other "service unavailable"),
   fun _ _ => .ok (), fun _ _ _ => .ok ()⟩

/-- A connected adapter state holding `backendServiceDown`. -/
def stServiceDown : QdrantState Unit := ⟨"localhost", 6333, some backendServiceDown⟩

/-- An adapter state on which `connect` has never succeeded: the connection
handle is still `None`. -/
def stDisconnected : QdrantState Unit := ⟨"localhost", 6333, none⟩

end DarcaVectorDB

open DarcaVectorDB

/-- C6: each of the four capability-contract operations of `BaseDBClient`
raises `NotImplementedError` with the fixed message "Subclasses must
implement this method.", and none of them raises an error of the taxonomy. -/
theorem C6_base_operations_not_implemented :
    (BaseDBClient.connect =
        .error (.notImplementedError "Subclasses must implement this method.")
      ∧ isTaxonomyError BaseDBClient.connect = false) ∧
    (∀ name vector_size distance_metric,
      BaseDBClient.create_collection name vector_size distance_metric =
        .error (.notImplementedError "Subclasses must implement this method.")
      ∧ isTaxonomyError
          (BaseDBClient.create_collection name vector_size distance_metric)
          = false) ∧
    (∀ collection_name vector_id vector metadata,
      BaseDBClient.insert_vector collection_name vector_id vector metadata =
        .error (.notImplementedError "Subclasses must implement this method.")
      ∧ isTaxonomyError
          (BaseDBClient.insert_vector collection_name vector_id vector
            metadata) = false) ∧
    (∀ (ρ : Type) collection_name query_vector top_k,
      @BaseDBClient.search_vectors ρ collection_name query_vector top_k =
        .error (.notImplementedError "Subclasses must implement this method.")
      ∧ isTaxonomyError
          (@BaseDBClient.search_vectors ρ collection_name query_vector top_k)
          = false) :=
  ⟨⟨rfl, rfl⟩, fun _ _ _ => ⟨rfl, rfl⟩, fun _ _ _ _ => ⟨rfl, rfl⟩,
    fun _ _ _ _ => ⟨rfl, rfl⟩⟩

/-- C2: for every distance-metric string whose upper-casing is not a member
of the backend's `Distance` enum, `create_collection` issues no backend call,
emits no log event, and raises `ValueError` whose message is the literal
"Unsupported distance metric: " followed by the unsupported string — on any
adapter state, connected or not. -/
theorem C2_unsupported_metric_value_error {ρ : Type} (st : QdrantState ρ)
    (name : String) (vector_size : Nat) (distance_metric : String)
    (h : pyUpper distance_metric ∉ Distance.members) :
    QdrantDBClient.create_collection st name vector_size distance_metric =
      ([], [],
       .error (.valueError
          ("Unsupported distance metric: " ++ distance_metric))) := by
  unfold QdrantDBClient.create_collection
  rw [if_neg h]

/-- Witness for C2 at the test suite's input "INVALID_METRIC". -/
theorem C2_unsupported_metric_value_error_witness :
    pyUpper "INVALID_METRIC" ∉ Distance.members ∧
    QdrantDBClient.create_collection stDisconnected "test_collection" 128
        "INVALID_METRIC" =
      ([], [],
       .error (.valueError
          ("Unsupported distance metric: " ++ "INVALID_METRIC"))) :=
  ⟨by decide,
   C2_unsupported_metric_value_error stDisconnected "test_collection" 128
     "INVALID_METRIC" (by decide)⟩

/-- C9: on an adapter whose handle is still `None`, `create_collection` with
a resolvable distance metric raises `ValueError` claiming an unsupported
metric (the `AttributeError` from the `None` handle is caught by the
unsupported-metric handler), with no backend call, no log event, and neither
a connection error nor a `CollectionCreationError`. -/
theorem C9_none_handle_create_collection {ρ : Type} (st : QdrantState ρ)
    (name : String) (vector_size : Nat) (distance_metric : String)
    (h1 : st.client = none)
    (h2 : pyUpper distance_metric ∈ Distance.members) :
    QdrantDBClient.create_collection st name vector_size distance_metric =
      ([], [],
       .error (.valueError
          ("Unsupported distance metric: " ++ distance_metric))) := by
  unfold QdrantDBClient.create_collection
  rw [if_pos h2, h1]

/-- Witness for C9 at the metric "cosine" on a never-connected adapter. -/
theorem C9_none_handle_create_collection_witness :
    stDisconnected.client = none ∧
    pyUpper "cosine" ∈ Distance.members ∧
    QdrantDBClient.create_collection stDisconnected "test_collection" 128
        "cosine" =
      ([], [],
       .error (.valueError ("Unsupported distance metric: " ++ "cosine"))) :=
  ⟨rfl, by decide,
   C9_none_handle_create_collection stDisconnected "test_collection" 128
     "cosine" rfl (by decide)⟩

/-- C10: on an adapter whose handle is still `None`, `insert_vector` raises
`VectorInsertionError` and `search_vectors` raises `VectorSearchError` (the
broad exception handlers catch the `None`-handle attribute access); no raw
attribute or backend exception escapes either operation. -/
theorem C10_none_handle_insert_search {ρ : Type} (st : QdrantState ρ)
    (collection_name vector_id : String) (vector : Vec)
    (metadata : Option Metadata) (query_vector : Vec) (top_k : Nat)
    (h : st.client = none) :
    QdrantDBClient.insert_vector st collection_name vector_id vector
        metadata =
      ([], [.error "Failed to insert vector"],
       .error (.dbError ⟨.vectorInsertionError, "Failed to insert vector",
          "VECTOR_INSERTION_ERROR", []⟩)) ∧
    QdrantDBClient.search_vectors st collection_name query_vector top_k =
      ([], [.error "Failed to search vectors"],
       .error (.dbError ⟨.vectorSearchError, "Failed to search vectors",
          "VECTOR_SEARCH_ERROR", []⟩)) := by
  unfold QdrantDBClient.insert_vector QdrantDBClient.search_vectors
  rw [h]
  exact ⟨rfl, rfl⟩

/-- Witness for C10 on a never-connected adapter. -/
theorem C10_none_handle_insert_search_witness :
    stDisconnected.client = none ∧
    (QdrantDBClient.insert_vector stDisconnected "test_collection" "vec1"
        [1, 2, 3] none =
      ([], [.error "Failed to insert vector"],
       .error (.dbError ⟨.vectorInsertionError, "Failed to insert vector",
          "VECTOR_INSERTION_ERROR", []⟩)) ∧
    QdrantDBClient.search_vectors stDisconnected "test_collection" [1, 2, 3]
        10 =
      ([], [.error "Failed to search vectors"],
       .error (.dbError ⟨.vectorSearchError, "Failed to search vectors",
          "VECTOR_SEARCH_ERROR", []⟩))) :=
  ⟨rfl,
   C10_none_handle_insert_search stDisconnected "test_collection" "vec1"
     [1, 2, 3] none [1, 2, 3] 10 rfl⟩



/-- C1 counterexample: on a connected adapter whose backend create-collection
call raises a generic exception (neither `AttributeError` nor
`UnexpectedResponse`), the exception escapes `create_collection` untranslated
— it is not re-raised as `CollectionCreationError`, and no taxonomy error is
raised at all. -/
theorem C1_counterexample_generic_exception_escapes :
    (QdrantDBClient.create_collection stServiceDown "test_collection" 128
        "cosine").2.2 = .error (.other "service unavailable") ∧
    isTaxonomyError
      (QdrantDBClient.create_collection stServiceDown "test_collection" 128
        "cosine").2.2 = false :=
  ⟨rfl, rfl⟩

/-- C1 (amended): of the backend failures of `create_collection`, exactly the
`UnexpectedResponse` kind is caught, logged at error level, and re-raised as
`CollectionCreationError` with error code `COLLECTION_CREATION_ERROR` and
empty metadata; a backend `AttributeError` is converted to the
unsupported-metric `ValueError`, and every other backend exception escapes
untranslated. -/
theorem C1_unexpected_response_translated {ρ : Type} (st : QdrantState ρ)
    (c : Backend ρ) (name : String) (vector_size : Nat)
    (distance_metric : String) (h1 : st.client = some c)
    (h2 : pyUpper distance_metric ∈ Distance.members)
    (h3 : c.createCollection name ⟨vector_size, pyUpper distance_metric⟩ =
      .exc .unexpectedResponse) :
    QdrantDBClient.create_collection st name vector_size distance_metric =
      ([.createCollection name ⟨vector_size, pyUpper distance_metric⟩],
       [.error "Failed to create collection"],
       .error (.dbError ⟨.collectionCreationError,
          "Failed to create collection", "COLLECTION_CREATION_ERROR", []⟩)) := by
  unfold QdrantDBClient.create_collection
  rw [if_pos h2, h1]
  dsimp only
  rw [h3]
  rfl

/-- Witness for the amended C1: a backend raising `UnexpectedResponse` on
create-collection yields `CollectionCreationError`. -/
theorem C1_unexpected_response_translated_witness :
    stRejecting.client = some backendRejecting ∧
    pyUpper "cosine" ∈ Distance.members ∧
    QdrantDBClient.create_collection stRejecting "test_collection" 128
        "cosine" =
      ([.createCollection "test_collection" ⟨128, pyUpper "cosine"⟩],
       [.error "Failed to create collection"],
       .error (.dbError ⟨.collectionCreationError,
          "Failed to create collection", "COLLECTION_CREATION_ERROR", []⟩)) :=
  ⟨rfl, by decide,
   C1_unexpected_response_translated stRejecting backendRejecting
     "test_collection" 128 "cosine" rfl (by decide) rfl⟩

/-- C3: on a connected adapter, `insert_vector` issues exactly one backend
upsert call carrying the one-element point list whose single point has the
given id, vector and payload (the metadata as given, `none` when omitted);
and on any exception from that backend call it raises `VectorInsertionError`
with error code `VECTOR_INSERTION_ERROR` and empty metadata. -/
theorem C3_insert_vector_single_upsert {ρ : Type} (st : QdrantState ρ)
    (c : Backend ρ) (collection_name vector_id : String) (vector : Vec)
    (metadata : Option Metadata) (h : st.client = some c) :
    (QdrantDBClient.insert_vector st collection_name vector_id vector
        metadata).1 =
      [.upsert collection_name [⟨vector_id, vector, metadata⟩]] ∧
    (∀ e, c.upsert collection_name [⟨vector_id, vector, metadata⟩] = .exc e →
      (QdrantDBClient.insert_vector st collection_name vector_id vector
          metadata).2.2 =
        .error (.dbError ⟨.vectorInsertionError, "Failed to insert vector",
           "VECTOR_INSERTION_ERROR", []⟩)) := by
  unfold QdrantDBClient.insert_vector
  rw [h]
  dsimp only
  cases hu : c.upsert collection_name [⟨vector_id, vector, metadata⟩] with
  | ok a =>
      refine ⟨rfl, fun e he => ?_⟩
      cases he
  | exc e0 => exact ⟨rfl, fun e _ => rfl⟩

/-- Witness for C3: the single upsert call on a successful backend, and the
`VectorInsertionError` on a backend whose upsert raises. -/
theorem C3_insert_vector_single_upsert_witness :
    (QdrantDBClient.insert_vector stHappy "test_collection" "vec1" [1, 2, 3]
        none).1 =
      [.upsert "test_collection" [⟨"vec1", [1, 2, 3], none⟩]] ∧
    (QdrantDBClient.insert_vector stRejecting "test_collection" "vec1"
        [1, 2, 3] none).2.2 =
      .error (.dbError ⟨.vectorInsertionError, "Failed to insert vector",
         "VECTOR_INSERTION_ERROR", []⟩) :=
  ⟨(C3_insert_vector_single_upsert stHappy backendHappy "test_collection"
      "vec1" [1, 2, 3] none rfl).1,
   (C3_insert_vector_single_upsert stRejecting backendRejecting
      "test_collection" "vec1" [1, 2, 3] none rfl).2
     (.other "Insertion Failed") rfl⟩

/-- C4: on a connected adapter, `search_vectors` with `top_k` omitted issues
the backend search with limit 10; on success it returns the backend's result
unmodified, and on any exception from that backend call it raises
`VectorSearchError` with error code `VECTOR_SEARCH_ERROR` and empty
metadata. -/
theorem C4_search_vectors_default_limit {ρ : Type} (st : QdrantState ρ)
    (c : Backend ρ) (collection_name : String) (query_vector : Vec)
    (h : st.client = some c) :
    (QdrantDBClient.search_vectors_default st collection_name query_vector).1
      = [.search collection_name query_vector 10] ∧
    (∀ r, c.search collection_name query_vector 10 = .ok r →
      (QdrantDBClient.search_vectors_default st collection_name
          query_vector).2.2 = .ok r) ∧
    (∀ e, c.search collection_name query_vector 10 = .exc e →
      (QdrantDBClient.search_vectors_default st collection_name
          query_vector).2.2 =
        .error (.dbError ⟨.vectorSearchError, "Failed to search vectors",
           "VECTOR_SEARCH_ERROR", []⟩)) := by
  unfold QdrantDBClient.search_vectors_default QdrantDBClient.search_vectors
  rw [h]
  dsimp only
  cases hs : c.search collection_name query_vector 10 with
  | ok r0 =>
      refine ⟨rfl, fun r hr => ?_, fun e he => ?_⟩
      · cases hr
        rfl
      · cases he
  | exc e0 =>
      refine ⟨rfl, fun r hr => ?_, fun e _ => rfl⟩
      cases hr

/-- Witness for C4: the backend of the repository's tests returns
["result1", "result2"], which `search_vectors` passes through with limit 10;
a raising backend yields `VectorSearchError`. -/
theorem C4_search_vectors_default_limit_witness :
    (QdrantDBClient.search_vectors_default stHappy "test_collection"
        [1, 2, 3]).1 = [.search "test_collection" [1, 2, 3] 10] ∧
    (QdrantDBClient.search_vectors_default stHappy "test_collection"
        [1, 2, 3]).2.2 = .ok ["result1", "result2"] ∧
    (QdrantDBClient.search_vectors_default stRejecting "test_collection"
        [1, 2, 3]).2.2 =
      .error (.dbError ⟨.vectorSearchError, "Failed to search vectors",
         "VECTOR_SEARCH_ERROR", []⟩) :=
  ⟨(C4_search_vectors_default_limit stHappy backendHappy "test_collection"
      [1, 2, 3] rfl).1,
   (C4_search_vectors_default_limit stHappy backendHappy "test_collection"
      [1, 2, 3] rfl).2.1 ["result1", "result2"] rfl,
   (C4_search_vectors_default_limit stRejecting backendRejecting
      "test_collection" [1, 2, 3] rfl).2.2
     (.other "Search Failed") rfl⟩

/-- C5: constructing the dispatch facade with any backend identifier other
than "qdrant" raises the base taxonomy error with error code
`DB_UNSUPPORTED_BACKEND` and constructs no adapter (the error branch returns
before any adapter state exists); with "qdrant" it succeeds, returning an
adapter whose handle is still `None`, so no connection was attempted. -/
theorem C5_unsupported_backend (ρ : Type) (backend host : String) (port : Nat)
    (h : backend ≠ "qdrant") :
    DBClient.init ρ backend host port =
      .error (.dbError ⟨.dbClientException,
         "Backend \x27" ++ backend ++ "\x27 is not supported",
         "DB_UNSUPPORTED_BACKEND", []⟩) ∧
    DBClient.init ρ "qdrant" host port = .ok ⟨host, port, none⟩ := by
  refine ⟨?_, ?_⟩
  · unfold DBClient.init
    rw [if_neg h]
    rfl
  · unfold DBClient.init
    rw [if_pos rfl]

/-- Witness for C5 at the test suite's identifier "invalid_backend". -/
theorem C5_unsupported_backend_witness :
    "invalid_backend" ≠ "qdrant" ∧
    DBClient.init Unit "invalid_backend" "localhost" 6333 =
      .error (.dbError ⟨.dbClientException,
         "Backend \x27" ++ "invalid_backend" ++ "\x27 is not supported",
         "DB_UNSUPPORTED_BACKEND", []⟩) ∧
    DBClient.init Unit "qdrant" "localhost" 6333 =
      .ok ⟨"localhost", 6333, none⟩ :=
  ⟨by decide,
   (C5_unsupported_backend Unit "invalid_backend" "localhost" 6333
     (by decide)).1,
   (C5_unsupported_backend Unit "invalid_backend" "localhost" 6333
     (by decide)).2⟩

/-- A string with a non-empty prefix is non-empty. -/
theorem str_append_ne_empty (s t : String) (h : s ≠ "") : s ++ t ≠ "" := by
  intro heq
  apply h
  have hd : (s ++ t).data = s.data ++ t.data := String.data_append s t
  rw [heq] at hd
  rcases List.append_eq_nil.mp hd.symm with ⟨h1, _⟩
  exact String.ext h1

/-- The backends used as witnesses raise no taxonomy error themselves. -/
theorem backendHappy_noTaxonomyRaises : backendHappy.noTaxonomyRaises :=
  ⟨fun _ _ _ h => by injection h, fun _ _ _ h => by injection h,
   fun _ _ _ _ h => by injection h⟩

/-- The rejecting witness backend raises no taxonomy error itself. -/
theorem backendRejecting_noTaxonomyRaises :
    backendRejecting.noTaxonomyRaises :=
  ⟨fun _ _ _ h => by injection h with h1; injection h1,
   fun _ _ _ h => by injection h with h1; injection h1,
   fun _ _ _ _ h => by injection h with h1; injection h1⟩

/-- C7: every error of the taxonomy raised by this layer — by `connect`,
`create_collection`, `insert_vector`, `search_vectors` or facade
construction, on any state and any backend behaviour (provided the external
backend itself raises none of this layer's typed errors) — carries a
non-empty message, exactly the error code assigned to its kind, and the
empty metadata mapping, since none of this layer's raise sites supplies
metadata. -/
theorem C7_taxonomy_error_contract {ρ : Type} (st : QdrantState ρ)
    (ctor : CallResult (Backend ρ)) (name : String) (vector_size : Nat)
    (distance_metric collection_name vector_id : String) (vector : Vec)
    (metadata : Option Metadata) (query_vector : Vec) (top_k : Nat)
    (backend host : String) (port : Nat)
    (hb : ∀ c, st.client = some c → c.noTaxonomyRaises) :
    (∀ e, (QdrantDBClient.connect st ctor).2.2 = .error (.dbError e) →
      e.meetsContract) ∧
    (∀ e, (QdrantDBClient.create_collection st name vector_size
        distance_metric).2.2 = .error (.dbError e) → e.meetsContract) ∧
    (∀ e, (QdrantDBClient.insert_vector st collection_name vector_id vector
        metadata).2.2 = .error (.dbError e) → e.meetsContract) ∧
    (∀ e, (QdrantDBClient.search_vectors st collection_name query_vector
        top_k).2.2 = .error (.dbError e) → e.meetsContract) ∧
    (∀ e, DBClient.init ρ backend host port = .error (.dbError e) →
      e.meetsContract) := by
  refine ⟨?_, ?_, ?_, ?_, ?_⟩
  · rcases ctor with c0 | e0 <;> intro e he
    · injection he
    · injection he with h1
      injection h1 with h2
      subst h2
      exact ⟨by decide, rfl, rfl⟩
  · intro e he
    unfold QdrantDBClient.create_collection at he
    by_cases hm : pyUpper distance_metric ∈ Distance.members
    · rcases hc : st.client with _ | c
      · rw [if_pos hm, hc] at he
        injection he with h1
        injection h1
      · rw [if_pos hm, hc] at he
        dsimp only at he
        rcases hcc : c.createCollection name
            ⟨vector_size, pyUpper distance_metric⟩ with a | e1 <;>
          rw [hcc] at he
        · injection he
        · rcases e1 with _ | m | m | m | d | m
          · injection he with h1
            injection h1 with h2
            subst h2
            exact ⟨by decide, rfl, rfl⟩
          · injection he with h1
            injection h1
          · injection he with h1
            injection h1
          · injection he with h1
            injection h1
          · exact absurd hcc ((hb c hc).1 name
              ⟨vector_size, pyUpper distance_metric⟩ d)
          · injection he with h1
            injection h1
    · rw [if_neg hm] at he
      injection he with h1
      injection h1
  · intro e he
    unfold QdrantDBClient.insert_vector at he
    rcases hc : st.client with _ | c
    · rw [hc] at he
      injection he with h1
      injection h1 with h2
      subst h2
      exact ⟨by decide, rfl, rfl⟩
    · rw [hc] at he
      dsimp only at he
      rcases hu : c.upsert collection_name [⟨vector_id, vector, metadata⟩]
          with a | e1 <;> rw [hu] at he
      · injection he
      · injection he with h1
        injection h1 with h2
        subst h2
        exact ⟨by decide, rfl, rfl⟩
  · intro e he
    unfold QdrantDBClient.search_vectors at he
    rcases hc : st.client with _ | c
    · rw [hc] at he
      injection he with h1
      injection h1 with h2
      subst h2
      exact ⟨by decide, rfl, rfl⟩
    · rw [hc] at he
      dsimp only at he
      rcases hs : c.search collection_name query_vector top_k
          with a | e1 <;> rw [hs] at he
      · injection he
      · injection he with h1
        injection h1 with h2
        subst h2
        exact ⟨by decide, rfl, rfl⟩
  · intro e he
    unfold DBClient.init at he
    by_cases hq : backend = "qdrant"
    · rw [if_pos hq] at he
      injection he
    · rw [if_neg hq] at he
      injection he with h1
      injection h1 with h2
      subst h2
      refine ⟨?_, rfl, rfl⟩
      exact str_append_ne_empty ("Backend \x27" ++ backend)
        "\x27 is not supported"
        (str_append_ne_empty "Backend \x27" backend (by decide))

/-- Witness for C7: the concrete errors raised by `create_collection` under
an `UnexpectedResponse` backend and by facade construction with an unknown
identifier both meet the contract. -/
theorem C7_taxonomy_error_contract_witness :
    DBError.meetsContract ⟨.collectionCreationError,
      "Failed to create collection", "COLLECTION_CREATION_ERROR", []⟩ ∧
    DBError.meetsContract ⟨.dbClientException,
      "Backend \x27" ++ "invalid_backend" ++ "\x27 is not supported",
      "DB_UNSUPPORTED_BACKEND", []⟩ :=
  ⟨(C7_taxonomy_error_contract stRejecting (.exc (.other "x"))
      "test_collection" 128 "cosine" "test_collection" "vec1" [1, 2, 3] none
      [1, 2, 3] 10 "invalid_backend" "localhost" 6333
      (fun c hcc => by
        injection hcc with h
        exact h ▸ backendRejecting_noTaxonomyRaises)).2.1 _ rfl,
   (C7_taxonomy_error_contract stRejecting (.exc (.other "x"))
      "test_collection" 128 "cosine" "test_collection" "vec1" [1, 2, 3] none
      [1, 2, 3] 10 "invalid_backend" "localhost" 6333
      (fun c hcc => by
        injection hcc with h
        exact h ▸ backendRejecting_noTaxonomyRaises)).2.2.2.2 _ rfl⟩

/-- C8 counterexample: `create_collection` invoked with the unresolvable
metric "INVALID_METRIC" fails (raising `ValueError`) while emitting zero log
events, so not every invocation of a public operation emits exactly one log
event. -/
theorem C8_counterexample_no_log_on_invalid_metric :
    (QdrantDBClient.create_collection stDisconnected "test_collection" 128
        "INVALID_METRIC").2.1 = ([] : List LogEvent) ∧
    (QdrantDBClient.create_collection stDisconnected "test_collection" 128
        "INVALID_METRIC").2.2 =
      .error (.valueError
        ("Unsupported distance metric: " ++ "INVALID_METRIC")) :=
  ⟨rfl, rfl⟩

/-- C8 (amended): each adapter operation emits, at its own layer, exactly one
log event on every completed path other than the unsupported-metric
`ValueError` path (which emits none): exactly one info event when it returns
normally, and exactly one error event when it raises a taxonomy error — the
error event sits in the operation's emission-ordered trace, hence is emitted
before the typed error is raised, never after.  The facade's `connect` adds a
second info event after the adapter's on success and adds nothing on failure.
(As in C7, the external backend is assumed to raise none of this layer's own
typed errors.) -/
theorem C8_one_log_per_completed_path {ρ : Type} (st : QdrantState ρ)
    (ctor : CallResult (Backend ρ)) (name : String) (vector_size : Nat)
    (distance_metric collection_name vector_id : String) (vector : Vec)
    (metadata : Option Metadata) (query_vector : Vec) (top_k : Nat)
    (hb : ∀ c, st.client = some c → c.noTaxonomyRaises) :
    emitsOneLog (QdrantDBClient.connect st ctor).2.1
      (QdrantDBClient.connect st ctor).2.2 ∧
    emitsOneLog (QdrantDBClient.create_collection st name vector_size
        distance_metric).2.1
      (QdrantDBClient.create_collection st name vector_size
        distance_metric).2.2 ∧
    emitsOneLog (QdrantDBClient.insert_vector st collection_name vector_id
        vector metadata).2.1
      (QdrantDBClient.insert_vector st collection_name vector_id vector
        metadata).2.2 ∧
    emitsOneLog (QdrantDBClient.search_vectors st collection_name
        query_vector top_k).2.1
      (QdrantDBClient.search_vectors st collection_name query_vector
        top_k).2.2 ∧
    (∀ a, (DBClient.connect st ctor).2.2 = .ok a →
      ∃ m1 m2, (DBClient.connect st ctor).2.1 = [.info m1, .info m2]) ∧
    (∀ e, (DBClient.connect st ctor).2.2 = .error (.dbError e) →
      ∃ m, (DBClient.connect st ctor).2.1 = [.error m]) := by
  refine ⟨?_, ?_, ?_, ?_, ?_, ?_⟩
  · rcases ctor with c0 | e0
    · exact ⟨fun a _ => ⟨_, rfl⟩, fun e he => by injection he⟩
    · exact ⟨fun a ha => by injection ha, fun e _ => ⟨_, rfl⟩⟩
  · by_cases hm : pyUpper distance_metric ∈ Distance.members
    · rcases hc : st.client with _ | c
      · have hEq : QdrantDBClient.create_collection st name vector_size
            distance_metric =
            ([], [], .error (.valueError
              ("Unsupported distance metric: " ++ distance_metric))) := by
          unfold QdrantDBClient.create_collection
          rw [if_pos hm, hc]
        rw [hEq]
        exact ⟨fun a ha => by injection ha,
          fun e he => by injection he with h1; injection h1⟩
      · rcases hcc : c.createCollection name
            ⟨vector_size, pyUpper distance_metric⟩ with a | e1
        · have hEq : QdrantDBClient.create_collection st name vector_size
              distance_metric =
              ([.createCollection name
                  ⟨vector_size, pyUpper distance_metric⟩],
               [.info ("Collection \x27" ++ name
                  ++ "\x27 created successfully.")],
               .ok ()) := by
            unfold QdrantDBClient.create_collection
            rw [if_pos hm, hc]
            dsimp only
            rw [hcc]
          rw [hEq]
          exact ⟨fun a _ => ⟨_, rfl⟩, fun e he => by injection he⟩
        · rcases e1 with _ | m | m | m | d | m
          · have hEq : QdrantDBClient.create_collection st name vector_size
                distance_metric =
                ([.createCollection name
                    ⟨vector_size, pyUpper distance_metric⟩],
                 [.error "Failed to create collection"],
                 .error (.dbError (DBClientException.init
                    .collectionCreationError "Failed to create collection"
                    "COLLECTION_CREATION_ERROR" none))) := by
              unfold QdrantDBClient.create_collection
              rw [if_pos hm, hc]
              dsimp only
              rw [hcc]
            rw [hEq]
            exact ⟨fun a ha => by injection ha, fun e _ => ⟨_, rfl⟩⟩
          · have hEq : QdrantDBClient.create_collection st name vector_size
                distance_metric =
                ([.createCollection name
                    ⟨vector_size, pyUpper distance_metric⟩], [],
                 .error (.valueError
                    ("Unsupported distance metric: " ++ distance_metric)))
                := by
              unfold QdrantDBClient.create_collection
              rw [if_pos hm, hc]
              dsimp only
              rw [hcc]
            rw [hEq]
            exact ⟨fun a ha => by injection ha,
              fun e he => by injection he with h1; injection h1⟩
          · have hEq : QdrantDBClient.create_collection st name vector_size
                distance_metric =
                ([.createCollection name
                    ⟨vector_size, pyUpper distance_metric⟩], [],
                 .error (.notImplementedError m)) := by
              unfold QdrantDBClient.create_collection
              rw [if_pos hm, hc]
              dsimp only
              rw [hcc]
            rw [hEq]
            exact ⟨fun a ha => by injection ha,
              fun e he => by injection he with h1; injection h1⟩
          · have hEq : QdrantDBClient.create_collection st name vector_size
                distance_metric =
                ([.createCollection name
                    ⟨vector_size, pyUpper distance_metric⟩], [],
                 .error (.valueError m)) := by
              unfold QdrantDBClient.create_collection
              rw [if_pos hm, hc]
              dsimp only
              rw [hcc]
            rw [hEq]
            exact ⟨fun a ha => by injection ha,
              fun e he => by injection he with h1; injection h1⟩
          · exact absurd hcc ((hb c hc).1 name
              ⟨vector_size, pyUpper distance_metric⟩ d)
          · have hEq : QdrantDBClient.create_collection st name vector_size
                distance_metric =
                ([.createCollection name
                    ⟨vector_size, pyUpper distance_metric⟩], [],
                 .error (.other m)) := by
              unfold QdrantDBClient.create_collection
              rw [if_pos hm, hc]
              dsimp only
              rw [hcc]
            rw [hEq]
            exact ⟨fun a ha => by injection ha,
              fun e he => by injection he with h1; injection h1⟩
    · have hEq : QdrantDBClient.create_collection st name vector_size
          distance_metric =
          ([], [], .error (.valueError
            ("Unsupported distance metric: " ++ distance_metric))) := by
        unfold QdrantDBClient.create_collection
        rw [if_neg hm]
      rw [hEq]
      exact ⟨fun a ha => by injection ha,
        fun e he => by injection he with h1; injection h1⟩
  · rcases hc : st.client with _ | c
    · have hEq : QdrantDBClient.insert_vector st collection_name vector_id
          vector metadata =
          ([], [.error "Failed to insert vector"],
           .error (.dbError (DBClientException.init .vectorInsertionError
              "Failed to insert vector" "VECTOR_INSERTION_ERROR" none))) := by
        unfold QdrantDBClient.insert_vector
        rw [hc]
      rw [hEq]
      exact ⟨fun a ha => by injection ha, fun e _ => ⟨_, rfl⟩⟩
    · rcases hu : c.upsert collection_name [⟨vector_id, vector, metadata⟩]
          with a | e1
      · have hEq : QdrantDBClient.insert_vector st collection_name vector_id
            vector metadata =
            ([.upsert collection_name [⟨vector_id, vector, metadata⟩]],
             [.info ("Vector with ID \x27" ++ vector_id
                ++ "\x27 inserted successfully into \x27" ++ collection_name
                ++ "\x27.")],
             .ok ()) := by
          unfold QdrantDBClient.insert_vector
          rw [hc]
          dsimp only
          rw [hu]
        rw [hEq]
        exact ⟨fun a _ => ⟨_, rfl⟩, fun e he => by injection he⟩
      · have hEq : QdrantDBClient.insert_vector st collection_name vector_id
            vector metadata =
            ([.upsert collection_name [⟨vector_id, vector, metadata⟩]],
             [.error "Failed to insert vector"],
             .error (.dbError (DBClientException.init .vectorInsertionError
                "Failed to insert vector" "VECTOR_INSERTION_ERROR" none)))
            := by
          unfold QdrantDBClient.insert_vector
          rw [hc]
          dsimp only
          rw [hu]
        rw [hEq]
        exact ⟨fun a ha => by injection ha, fun e _ => ⟨_, rfl⟩⟩
  · rcases hc : st.client with _ | c
    · have hEq : QdrantDBClient.search_vectors st collection_name
          query_vector top_k =
          ([], [.error "Failed to search vectors"],
           .error (.dbError (DBClientException.init .vectorSearchError
              "Failed to search vectors" "VECTOR_SEARCH_ERROR" none))) := by
        unfold QdrantDBClient.search_vectors
        rw [hc]
      rw [hEq]
      exact ⟨fun a ha => by injection ha, fun e _ => ⟨_, rfl⟩⟩
    · rcases hs : c.search collection_name query_vector top_k with a | e1
      · have hEq : QdrantDBClient.search_vectors st collection_name
            query_vector top_k =
            ([.search collection_name query_vector top_k],
             [.info ("Search completed successfully in collection \x27"
                ++ collection_name ++ "\x27.")],
             .ok a) := by
          unfold QdrantDBClient.search_vectors
          rw [hc]
          dsimp only
          rw [hs]
        rw [hEq]
        exact ⟨fun a _ => ⟨_, rfl⟩, fun e he => by injection he⟩
      · have hEq : QdrantDBClient.search_vectors st collection_name
            query_vector top_k =
            ([.search collection_name query_vector top_k],
             [.error "Failed to search vectors"],
             .error (.dbError (DBClientException.init .vectorSearchError
                "Failed to search vectors" "VECTOR_SEARCH_ERROR" none))) := by
          unfold QdrantDBClient.search_vectors
          rw [hc]
          dsimp only
          rw [hs]
        rw [hEq]
        exact ⟨fun a ha => by injection ha, fun e _ => ⟨_, rfl⟩⟩
  · rcases ctor with c0 | e0
    · exact fun a _ => ⟨_, _, rfl⟩
    · exact fun a ha => by injection ha
  · rcases ctor with c0 | e0
    · exact fun e he => by injection he
    · exact fun e _ => ⟨_, rfl⟩

/-- Witness for the amended C8: a successful `create_collection` emits one
info event, a failing `insert_vector` emits one error event, and the facade's
successful `connect` emits two info events. -/
theorem C8_one_log_per_completed_path_witness :
    (∃ m, (QdrantDBClient.create_collection stHappy "test_collection" 128
        "cosine").2.1 = [.info m]) ∧
    (∃ m, (QdrantDBClient.insert_vector stRejecting "test_collection" "vec1"
        [1, 2, 3] none).2.1 = [.error m]) ∧
    (∃ m1 m2, (DBClient.connect stHappy (.ok backendHappy)).2.1 =
      [.info m1, .info m2]) :=
  ⟨((C8_one_log_per_completed_path stHappy (.ok backendHappy)
      "test_collection" 128 "cosine" "test_collection" "vec1" [1, 2, 3] none
      [1, 2, 3] 10
      (fun c hcc => by
        injection hcc with h
        exact h ▸ backendHappy_noTaxonomyRaises)).2.1).1 () rfl,
   ((C8_one_log_per_completed_path stRejecting (.exc (.other "x"))
      "test_collection" 128 "cosine" "test_collection" "vec1" [1, 2, 3] none
      [1, 2, 3] 10
      (fun c hcc => by
        injection hcc with h
        exact h ▸ backendRejecting_noTaxonomyRaises)).2.2.1).2
     (DBClientException.init .vectorInsertionError "Failed to insert vector"
       "VECTOR_INSERTION_ERROR" none) rfl,
   (C8_one_log_per_completed_path stHappy (.ok backendHappy)
      "test_collection" 128 "cosine" "test_collection" "vec1" [1, 2, 3] none
      [1, 2, 3] 10
      (fun c hcc => by
        injection hcc with h
        exact h ▸ backendHappy_noTaxonomyRaises)).2.2.2.2.1 () rfl⟩
